import Mathlib

/-!
Verification of the archive faceting/filtering core of the flask-example-site
blog application (src/sample/app/blog.py, with the User model from
src/sample/app/auth.py).

The relational store is modelled by plain lists: a table is a list of rows in
storage (rowid/insertion) order, a query criterion is a Boolean predicate,
and SQL DISTINCT is List.dedup.  Pagination follows flask_sqlalchemy's
Query.paginate / Pagination object with error_out=False, which is how every
route in blog.py calls it.  The raw request values the archive_options_ajax
route forwards are modelled by Param, and Python's int() coercion on them by
pyInt.
-/

namespace Blog

/-- A pub_date column value: the year and month components (what the SQL
extract function reads off) plus the remaining day/time information, encoded
so that chronological comparison is lexicographic on (year, month, rest). -/
structure PubDate where
  year : Int
  month : Int
  rest : Nat
deriving DecidableEq

/-- Chronological comparison of two pub_date values. -/
def PubDate.le (d e : PubDate) : Bool :=
  d.year < e.year ||
    (d.year == e.year && (d.month < e.month || (d.month == e.month && d.rest ≤ e.rest)))

/-- The Post model of blog.py: id, title, body, pub_date and author_id. -/
structure Post where
  id : Int
  title : String
  body : String
  pub_date : PubDate
  author_id : Int
deriving DecidableEq

/-- The User model of auth.py: id, unique email, password hash, display name. -/
structure User where
  id : Int
  email : String
  password : String
  name : String
deriving DecidableEq

/-- blog.py ITEMS_PER_PAGE: number of items for each page across the site. -/
def ITEMS_PER_PAGE : Nat := 10

/-- flask_sqlalchemy's Pagination object: the slice of items served, the page
number, the page size and the total number of rows of the underlying query. -/
structure Pagination (α : Type) where
  items : List α
  page : Nat
  per_page : Nat
  total : Nat
deriving DecidableEq

/-- Query.paginate(page, per_page, False): a page below 1 is replaced by 1
(error_out is False), then the rows are sliced with
limit(per_page).offset((page - 1) * per_page). -/
def paginate {α : Type} (l : List α) (page per_page : Nat) : Pagination α :=
  let page := if page < 1 then 1 else page
  ⟨(l.drop ((page - 1) * per_page)).take per_page, page, per_page, l.length⟩

/-- Pagination.pages: ceil(total / per_page), 0 when per_page is 0. -/
def Pagination.pages {α : Type} (p : Pagination α) : Nat :=
  if p.per_page == 0 then 0 else (p.total + p.per_page - 1) / p.per_page

/-- Pagination.has_next: page < pages. -/
def Pagination.has_next {α : Type} (p : Pagination α) : Bool :=
  p.page < p.pages

/-- Pagination.has_prev: page > 1. -/
def Pagination.has_prev {α : Type} (p : Pagination α) : Bool :=
  1 < p.page

/-- blog.py year_filter for the integer-typed selector values the archive
route produces (request.args.get(type=int) / SelectField(coerce=int)):
year=0 gives the empty-string no-op criterion, modelled as none; otherwise
the criterion extract(year, Post.pub_date) == year. -/
def year_filter (year : Int) : Option (Post → Bool) :=
  if year == 0 then none else some (fun p => p.pub_date.year == year)

/-- blog.py month_filter, as year_filter but on the month component. -/
def month_filter (month : Int) : Option (Post → Bool) :=
  if month == 0 then none else some (fun p => p.pub_date.month == month)

/-- blog.py author_filter, as year_filter but on Post.author_id. -/
def author_filter (author_id : Int) : Option (Post → Bool) :=
  if author_id == 0 then none else some (fun p => p.author_id == author_id)

/-- Query.filter(*filters): every real criterion is ANDed into the WHERE
clause; an empty-string entry (none) does not affect the query. -/
def applyFilters (filters : List (Option (Post → Bool))) (q : List Post) : List Post :=
  q.filter (fun p => filters.all (fun c => (c.map (fun f => f p)).getD true))

/-- blog.py archive_posts: Post.query.filter(year_filter(year),
month_filter(month), author_filter(author_id)). -/
def archive_posts (posts : List Post) (year month author_id : Int) : List Post :=
  applyFilters [year_filter year, month_filter month, author_filter author_id] posts

/-- The listing mode of blog.py's archive route: paginate the filtered posts
at the requested page with ITEMS_PER_PAGE; archive_posts applies no order_by,
so the rows keep storage order. -/
def archive_listing (posts : List Post) (year month author_id : Int) (page : Nat) :
    Pagination Post :=
  paginate (archive_posts posts year month author_id) page ITEMS_PER_PAGE

/-- The form-submission branch of blog.py's archive route: the filtered posts
are always paginated at page 1. -/
def archive_form_listing (posts : List Post) (year month author_id : Int) : Pagination Post :=
  paginate (archive_posts posts year month author_id) 1 ITEMS_PER_PAGE

/-- Whether a list of posts is ordered by publication timestamp descending,
the order blog.py's index route requests with
order_by(Post.pub_date.desc()). -/
def sortedByPubDateDesc : List Post → Bool
  | [] => true
  | [_] => true
  | a :: b :: t => PubDate.le b.pub_date a.pub_date && sortedByPubDateDesc (b :: t)

/-- A facet option's display name: the raw integer (year options), a string
(month names, "All", author names) or Python None (an author row whose outer
join found no user). -/
inductive Label where
  | int (n : Int)
  | str (s : String)
  | null
deriving DecidableEq

/-- A facet option as built by blog.py: a value and a display name. -/
structure FacetOption where
  value : Int
  name : Label
deriving DecidableEq

/-- calendar.month_name lookup for the month values 1-12 that extract(month)
can produce from a stored date. -/
def month_name (m : Int) : String :=
  if m = 1 then "January" else if m = 2 then "February" else if m = 3 then "March"
  else if m = 4 then "April" else if m = 5 then "May" else if m = 6 then "June"
  else if m = 7 then "July" else if m = 8 then "August" else if m = 9 then "September"
  else if m = 10 then "October" else if m = 11 then "November" else if m = 12 then "December"
  else ""

/-- blog.py year_options: the distinct years among posts matching the month
and author filters, each paired with the year itself as display name. -/
def year_options (posts : List Post) (month author_id : Int) : List FacetOption :=
  let filters := [month_filter month, author_filter author_id]
  let years_raw := ((applyFilters filters posts).map (fun p => p.pub_date.year)).dedup
  years_raw.map (fun y => ⟨y, Label.int y⟩)

/-- blog.py month_options: the distinct months among posts matching the year
and author filters, each paired with its calendar name. -/
def month_options (posts : List Post) (year author_id : Int) : List FacetOption :=
  let filters := [year_filter year, author_filter author_id]
  let months_raw := ((applyFilters filters posts).map (fun p => p.pub_date.month)).dedup
  months_raw.map (fun m => ⟨m, Label.str (month_name m)⟩)

/-- The left outer join of one post's author_id against the user table: one
row per user with that id, or a single NULL row when there is none. -/
def joinedUsers (users : List User) (author_id : Int) : List (Option User) :=
  match users.filter (fun u => u.id == author_id) with
  | [] => [Option.none]
  | us => us.map Option.some

/-- blog.py author_options: distinct (author_id, User.name) rows of the posts
matching the year and month filters, outer-joined against the user table. -/
def author_options (users : List User) (posts : List Post) (year month : Int) :
    List FacetOption :=
  let filters := [year_filter year, month_filter month]
  let authors_raw :=
    ((applyFilters filters posts).flatMap
        (fun p => (joinedUsers users p.author_id).map
          (fun u => (p.author_id, u.map User.name)))).dedup
  authors_raw.map (fun r => ⟨r.1, match r.2 with
    | Option.some s => Label.str s
    | Option.none => Label.null⟩)

/-- The dictionary blog.py's archive_options returns: one option list per
facet. -/
structure ArchiveOptions where
  year : List FacetOption
  month : List FacetOption
  author : List FacetOption
deriving DecidableEq

/-- blog.py's 'Any value' choice. -/
def any_choice : FacetOption := ⟨0, Label.str "All"⟩

/-- blog.py archive_options: each facet's options are computed against the
other two selector components, then any_choice is inserted at index 0 of
every list. -/
def archive_options (users : List User) (posts : List Post)
    (year month author_id : Int) : ArchiveOptions :=
  let years := year_options posts month author_id
  let months := month_options posts year author_id
  let authors := author_options users posts year month
  ⟨any_choice :: years, any_choice :: months, any_choice :: authors⟩

/-- blog.py authors route query: users outer-joined with posts on
User.id = Post.author_id, rows without a post dropped (Post.id != None),
grouped by author_id with a count of post rows per group. -/
def authors_query (users : List User) (posts : List Post) : List (User × Nat) :=
  (users.map (fun u => (u, posts.filter (fun p => p.author_id == u.id)))).filterMap
    (fun r => if r.2.isEmpty then Option.none else Option.some (r.1, r.2.length))

/-- A raw request value as the archive_options_ajax route reads it with
request.args.get: an integer, a string, or absent (Python None). -/
inductive Param where
  | int (n : Int)
  | str (s : String)
  | none
deriving DecidableEq

/-- The Python errors int() can raise on a request value. -/
inductive PyError where
  | typeError
  | valueError
deriving DecidableEq

/-- Python's int() on a request value: identity on integers, numeric-string
parsing on strings (ValueError on a non-numeric string), TypeError on None. -/
def pyInt : Param → Except PyError Int
  | Param.int n => Except.ok n
  | Param.str s =>
      match s.toInt? with
      | Option.some n => Except.ok n
      | Option.none => Except.error PyError.valueError
  | Param.none => Except.error PyError.typeError

/-- The column a raw filter criterion compares. -/
inductive Col where
  | year
  | month
  | author
deriving DecidableEq

/-- An unevaluated SQL equality criterion as the filter builders construct
it: the compared column and the raw right-hand side the source passes
through. -/
structure RawCond where
  col : Col
  rhs : Param
deriving DecidableEq

namespace Raw

/-- blog.py year_filter on a raw request value: int(year) is computed first
and compared against 0; 0 yields the empty-string no-op, any other value
yields the extract(year) criterion whose right-hand side is the raw value.
A failing int() coercion raises out of the function. -/
def year_filter (year : Param) : Except PyError (Option RawCond) :=
  match pyInt year with
  | Except.error e => Except.error e
  | Except.ok n =>
      if n == 0 then Except.ok Option.none else Except.ok (Option.some ⟨Col.year, year⟩)

/-- blog.py month_filter on a raw request value, as Raw.year_filter. -/
def month_filter (month : Param) : Except PyError (Option RawCond) :=
  match pyInt month with
  | Except.error e => Except.error e
  | Except.ok n =>
      if n == 0 then Except.ok Option.none else Except.ok (Option.some ⟨Col.month, month⟩)

/-- blog.py author_filter on a raw request value, as Raw.year_filter. -/
def author_filter (author_id : Param) : Except PyError (Option RawCond) :=
  match pyInt author_id with
  | Except.error e => Except.error e
  | Except.ok n =>
      if n == 0 then Except.ok Option.none
      else Except.ok (Option.some ⟨Col.author, author_id⟩)

/-- The filter lists archive_options builds when archive_options_ajax passes
it the raw request values: year_options(month, author_id) runs first, so its
month_filter(month) call is the first int() coercion; a raised error
propagates out of the whole request. -/
def archive_options_filters (year month author_id : Param) :
    Except PyError
      (List (Option RawCond) × List (Option RawCond) × List (Option RawCond)) := do
  let yf1 ← month_filter month
  let yf2 ← author_filter author_id
  let mf1 ← year_filter year
  let mf2 ← author_filter author_id
  let af1 ← year_filter year
  let af2 ← month_filter month
  return ([yf1, yf2], [mf1, mf2], [af1, af2])

end Raw

/-- Membership in a filtered query: the row is stored and every criterion of
the list accepts it (an omitted criterion accepts everything). -/
theorem mem_applyFilters (posts : List Post) (fs : List (Option (Post → Bool))) (p : Post) :
    p ∈ applyFilters fs posts ↔
      p ∈ posts ∧ ∀ c ∈ fs, (c.map (fun f => f p)).getD true = true := by
  simp [applyFilters, List.mem_filter, List.all_eq_true]

/-- year_filter's criterion accepts a post exactly when the year selector is
the sentinel or equals the post's publication year. -/
theorem year_filter_accepts (y : Int) (p : Post) :
    ((year_filter y).map (fun f => f p)).getD true = true ↔
      (y ≠ 0 → p.pub_date.year = y) := by
  by_cases hy : y = 0 <;> simp [year_filter, hy]

/-- month_filter's criterion accepts a post exactly when the month selector
is the sentinel or equals the post's publication month. -/
theorem month_filter_accepts (m : Int) (p : Post) :
    ((month_filter m).map (fun f => f p)).getD true = true ↔
      (m ≠ 0 → p.pub_date.month = m) := by
  by_cases hm : m = 0 <;> simp [month_filter, hm]

/-- author_filter's criterion accepts a post exactly when the author selector
is the sentinel or equals the post's author_id. -/
theorem author_filter_accepts (a : Int) (p : Post) :
    ((author_filter a).map (fun f => f p)).getD true = true ↔
      (a ≠ 0 → p.author_id = a) := by
  by_cases ha : a = 0 <;> simp [author_filter, ha]

/-- Characterization of archive_posts membership, shared by several
theorems below. -/
theorem mem_archive_posts (posts : List Post) (p : Post) (y m a : Int) :
    p ∈ archive_posts posts y m a ↔
      p ∈ posts ∧ (y ≠ 0 → p.pub_date.year = y) ∧ (m ≠ 0 → p.pub_date.month = m) ∧
        (a ≠ 0 → p.author_id = a) := by
  rw [archive_posts, mem_applyFilters]
  simp only [List.mem_cons, List.not_mem_nil, or_false, forall_eq_or_imp, forall_eq]
  rw [year_filter_accepts, month_filter_accepts, author_filter_accepts]

/-- C1: archive_posts returns a stored post exactly when every non-zero
selector component (year, month, author_id) equals the post's corresponding
attribute; a non-zero component differing from the post's attribute excludes
the post. -/
theorem C1_filter_builder_matches (posts : List Post) (p : Post) (y m a : Int) :
    p ∈ archive_posts posts y m a ↔
      p ∈ posts ∧ (y ≠ 0 → p.pub_date.year = y) ∧ (m ≠ 0 → p.pub_date.month = m) ∧
        (a ≠ 0 → p.author_id = a) :=
  mem_archive_posts posts p y m a

/-- C2: the all-zero selector omits all three sub-criteria, so archive_posts
returns every stored post unchanged. -/
theorem C2_all_zero_identity (posts : List Post) :
    archive_posts posts 0 0 0 = posts := by
  simp [archive_posts, applyFilters, year_filter, month_filter, author_filter]

/-- C3: paginating a result set of size S at page N with page size K serves
min(K, max(0, S - (N-1)K)) items, has_next is true exactly when N*K < S, and
has_prev is true exactly when N > 1. -/
theorem C3_pagination {α : Type} (l : List α) (n k : Nat) (hn : 1 ≤ n) (hk : 1 ≤ k) :
    ((paginate l n k).items.length : Int) =
        min (k : Int) (max 0 ((l.length : Int) - ((n : Int) - 1) * (k : Int))) ∧
      ((paginate l n k).has_next = true ↔ (n : Int) * (k : Int) < (l.length : Int)) ∧
      ((paginate l n k).has_prev = true ↔ 1 < n) := by
  have hpage : (if n < 1 then 1 else n) = n := if_neg (by omega)
  have hcast : (((n - 1) * k : Nat) : Int) = ((n : Int) - 1) * (k : Int) := by
    push_cast [Nat.cast_sub hn]
    ring
  refine ⟨?_, ?_, ?_⟩
  · simp only [paginate, hpage, List.length_take, List.length_drop]
    rw [← hcast]
    generalize (n - 1) * k = t
    push_cast
    omega
  · have key : n < (l.length + k - 1) / k ↔ n * k < l.length := by
      have hg : ∀ a : Nat, a + k ≤ l.length + k - 1 ↔ a < l.length := fun a => by omega
      rw [Nat.lt_iff_add_one_le, Nat.le_div_iff_mul_le (by omega : 0 < k), add_one_mul]
      exact hg (n * k)
    have hk0 : (k == 0) = false := by
      simp only [beq_eq_false_iff_ne, ne_eq]
      omega
    simp only [paginate, Pagination.has_next, Pagination.pages, hpage, hk0,
      Bool.false_eq_true, if_false, decide_eq_true_eq]
    exact_mod_cast key
  · simp only [paginate, Pagination.has_prev, hpage, decide_eq_true_eq]

/-- Witness for C3 at a 25-row result set, page 2, page size 10. -/
theorem C3_pagination_witness :
    ((paginate (List.range 25) 2 10).items.length : Int) =
        min ((10 : Nat) : Int)
          (max 0 (((List.range 25).length : Int) - (((2 : Nat) : Int) - 1) * ((10 : Nat) : Int))) ∧
      ((paginate (List.range 25) 2 10).has_next = true ↔
        ((2 : Nat) : Int) * ((10 : Nat) : Int) < ((List.range 25).length : Int)) ∧
      ((paginate (List.range 25) 2 10).has_prev = true ↔ 1 < 2) :=
  C3_pagination (List.range 25) 2 10 (by decide) (by decide)

/-- C5: for every selector, each of the three option lists returned by
archive_options starts with the "All" sentinel of value 0. -/
theorem C5_all_sentinel_first (users : List User) (posts : List Post) (y m a : Int) :
    (archive_options users posts y m a).year.head? = some ⟨0, Label.str "All"⟩ ∧
      (archive_options users posts y m a).month.head? = some ⟨0, Label.str "All"⟩ ∧
      (archive_options users posts y m a).author.head? = some ⟨0, Label.str "All"⟩ :=
  ⟨rfl, rfl, rfl⟩

/-- C9: the archive route's form-submission branch always paginates the
matching posts at page number 1, so the served page is the first
ITEMS_PER_PAGE matching posts and has_prev is false. -/
theorem C9_form_submission_first_page (posts : List Post) (y m a : Int) :
    (archive_form_listing posts y m a).page = 1 ∧
      (archive_form_listing posts y m a).items =
        (archive_posts posts y m a).take ITEMS_PER_PAGE ∧
      (archive_form_listing posts y m a).has_prev = false := by
  refine ⟨rfl, ?_, rfl⟩
  simp [archive_form_listing, paginate]

/-- Mapping facet values over options built from a raw value list recovers
that list. -/
theorem values_map_mk (l : List Int) (f : Int → Label) :
    (l.map (fun v => (⟨v, f v⟩ : FacetOption))).map FacetOption.value = l := by
  induction l with
  | nil => rfl
  | cons x xs ih => simp only [List.map_cons, ih]

/-- Mapping facet values over options built from (value, name) rows recovers
the first components. -/
theorem values_map_mk_pair (l : List (Int × Option String)) (f : Option String → Label) :
    (l.map (fun r => (⟨r.1, f r.2⟩ : FacetOption))).map FacetOption.value =
      l.map Prod.fst := by
  induction l with
  | nil => rfl
  | cons x xs ih => simp only [List.map_cons, ih]

/-- With pairwise-distinct user ids, the outer join rows of an author_id
collapse to the single find? lookup. -/
theorem joinedUsers_eq_find (users : List User) (i : Int)
    (h : (users.map User.id).Nodup) :
    joinedUsers users i = [users.find? (fun u => u.id == i)] := by
  induction users with
  | nil => rfl
  | cons u us ih =>
    simp only [List.map_cons, List.nodup_cons, List.mem_map] at h
    obtain ⟨hnotin, hnd⟩ := h
    by_cases hu : u.id = i
    · have hrest : us.filter (fun x => x.id == i) = [] := by
        rw [List.filter_eq_nil_iff]
        intro x hx
        simp only [beq_iff_eq]
        intro hxi
        exact hnotin ⟨x, hx, by rw [hxi, hu]⟩
      have hfc : (u :: us).filter (fun x => x.id == i) = [u] := by
        rw [List.filter_cons_of_pos (by simpa using hu), hrest]
      unfold joinedUsers
      rw [hfc, List.find?_cons_of_pos _ (by simpa using hu)]
      rfl
    · have hfc : (u :: us).filter (fun x => x.id == i) = us.filter (fun x => x.id == i) := by
        rw [List.filter_cons_of_neg (by simpa using hu)]
      unfold joinedUsers
      rw [hfc, List.find?_cons_of_neg _ (by simpa using hu)]
      exact ih hnd

/-- With pairwise-distinct user ids, the author_options join rows are one row
per filtered post, carrying the post's author_id and the looked-up name. -/
theorem flatMap_joined_eq_map (users : List User) (ps : List Post)
    (h : (users.map User.id).Nodup) :
    ps.flatMap (fun p => (joinedUsers users p.author_id).map
        (fun u => (p.author_id, u.map User.name))) =
      ps.map (fun p =>
        (p.author_id, (users.find? (fun u => u.id == p.author_id)).map User.name)) := by
  induction ps with
  | nil => rfl
  | cons q qs ih =>
    simp only [List.flatMap_cons, List.map_cons, ← ih]
    rw [joinedUsers_eq_find users q.author_id h]
    rfl

/-- year_filter's criterion evaluates on a post to the Boolean
sentinel-or-equal test. -/
theorem year_filter_getD_eq (y : Int) (p : Post) :
    ((year_filter y).map (fun f => f p)).getD true = (y == 0 || p.pub_date.year == y) := by
  by_cases hy : y = 0
  · subst hy
    simp [year_filter]
  · have h0 : (y == 0) = false := by simp [hy]
    simp [year_filter, h0]

/-- month_filter's criterion evaluates on a post to the Boolean
sentinel-or-equal test. -/
theorem month_filter_getD_eq (m : Int) (p : Post) :
    ((month_filter m).map (fun f => f p)).getD true = (m == 0 || p.pub_date.month == m) := by
  by_cases hm : m = 0
  · subst hm
    simp [month_filter]
  · have h0 : (m == 0) = false := by simp [hm]
    simp [month_filter, h0]

/-- author_filter's criterion evaluates on a post to the Boolean
sentinel-or-equal test. -/
theorem author_filter_getD_eq (a : Int) (p : Post) :
    ((author_filter a).map (fun f => f p)).getD true = (a == 0 || p.author_id == a) := by
  by_cases ha : a = 0
  · subst ha
    simp [author_filter]
  · have h0 : (a == 0) = false := by simp [ha]
    simp [author_filter, h0]

/-- Deduplication does not change a list's finset of elements. -/
theorem toFinset_dedup_eq {α : Type} [DecidableEq α] (l : List α) :
    l.dedup.toFinset = l.toFinset := by
  ext x
  simp [List.mem_toFinset, List.mem_dedup]

/-- The (month, author) criterion pair coincides with a plain
sentinel-or-equal Boolean filter. -/
theorem applyFilters_month_author (posts : List Post) (m a : Int) :
    applyFilters [month_filter m, author_filter a] posts =
      posts.filter (fun p =>
        (m == 0 || p.pub_date.month == m) && (a == 0 || p.author_id == a)) := by
  unfold applyFilters
  apply List.filter_congr
  intro p _
  simp only [List.all_cons, List.all_nil, Bool.and_true]
  rw [month_filter_getD_eq, author_filter_getD_eq]

/-- The (year, author) criterion pair coincides with a plain
sentinel-or-equal Boolean filter. -/
theorem applyFilters_year_author (posts : List Post) (y a : Int) :
    applyFilters [year_filter y, author_filter a] posts =
      posts.filter (fun p =>
        (y == 0 || p.pub_date.year == y) && (a == 0 || p.author_id == a)) := by
  unfold applyFilters
  apply List.filter_congr
  intro p _
  simp only [List.all_cons, List.all_nil, Bool.and_true]
  rw [year_filter_getD_eq, author_filter_getD_eq]

/-- The (year, month) criterion pair coincides with a plain sentinel-or-equal
Boolean filter. -/
theorem applyFilters_year_month (posts : List Post) (y m : Int) :
    applyFilters [year_filter y, month_filter m] posts =
      posts.filter (fun p =>
        (y == 0 || p.pub_date.year == y) && (m == 0 || p.pub_date.month == m)) := by
  unfold applyFilters
  apply List.filter_congr
  intro p _
  simp only [List.all_cons, List.all_nil, Bool.and_true]
  rw [year_filter_getD_eq, month_filter_getD_eq]

/-- C4: the Facet Resolver computes each facet's options as the distinct
values of that facet among the posts matching only the other two selector
components: year options are filtered by (month, author), month options by
(year, author) and author options by (year, month); each option list past the
sentinel is duplicate-free and covers exactly those values. -/
theorem C4_facet_resolver (users : List User) (posts : List Post) (y m a : Int)
    (hids : (users.map User.id).Nodup) :
    (((archive_options users posts y m a).year.tail.map FacetOption.value).Nodup ∧
      ((archive_options users posts y m a).year.tail.map FacetOption.value).toFinset =
        ((posts.filter (fun p => (m == 0 || p.pub_date.month == m) &&
            (a == 0 || p.author_id == a))).map (fun p => p.pub_date.year)).toFinset) ∧
    (((archive_options users posts y m a).month.tail.map FacetOption.value).Nodup ∧
      ((archive_options users posts y m a).month.tail.map FacetOption.value).toFinset =
        ((posts.filter (fun p => (y == 0 || p.pub_date.year == y) &&
            (a == 0 || p.author_id == a))).map (fun p => p.pub_date.month)).toFinset) ∧
    (((archive_options users posts y m a).author.tail.map FacetOption.value).Nodup ∧
      ((archive_options users posts y m a).author.tail.map FacetOption.value).toFinset =
        ((posts.filter (fun p => (y == 0 || p.pub_date.year == y) &&
            (m == 0 || p.pub_date.month == m))).map (fun p => p.author_id)).toFinset) := by
  have hyearvals : (archive_options users posts y m a).year.tail.map FacetOption.value =
      ((applyFilters [month_filter m, author_filter a] posts).map
        (fun p => p.pub_date.year)).dedup := by
    simp only [archive_options, List.tail_cons, year_options]
    exact values_map_mk _ Label.int
  have hmonthvals : (archive_options users posts y m a).month.tail.map FacetOption.value =
      ((applyFilters [year_filter y, author_filter a] posts).map
        (fun p => p.pub_date.month)).dedup := by
    simp only [archive_options, List.tail_cons, month_options]
    exact values_map_mk _ (fun v => Label.str (month_name v))
  have hauvals : (archive_options users posts y m a).author.tail.map FacetOption.value =
      (((applyFilters [year_filter y, month_filter m] posts).map (fun p =>
          (p.author_id,
            (users.find? (fun u => u.id == p.author_id)).map User.name))).dedup).map
        Prod.fst := by
    simp only [archive_options, List.tail_cons, author_options]
    rw [flatMap_joined_eq_map users _ hids]
    exact values_map_mk_pair _
      (fun o => match o with
        | Option.some s => Label.str s
        | Option.none => Label.null)
  refine ⟨⟨?_, ?_⟩, ⟨?_, ?_⟩, ⟨?_, ?_⟩⟩
  · rw [hyearvals]
    exact List.nodup_dedup _
  · rw [hyearvals, applyFilters_month_author, toFinset_dedup_eq]
  · rw [hmonthvals]
    exact List.nodup_dedup _
  · rw [hmonthvals, applyFilters_year_author, toFinset_dedup_eq]
  · rw [hauvals]
    apply List.Nodup.map_on ?_ (List.nodup_dedup _)
    intro r hr s hs hfst
    have hr2 := List.mem_dedup.mp hr
    have hs2 := List.mem_dedup.mp hs
    simp only [List.mem_map] at hr2 hs2
    obtain ⟨p1, -, rfl⟩ := hr2
    obtain ⟨p2, -, rfl⟩ := hs2
    have hid : p1.author_id = p2.author_id := hfst
    simp only [Prod.mk.injEq]
    exact ⟨hid, by rw [hid]⟩
  · rw [hauvals, applyFilters_year_month]
    ext v
    simp only [List.mem_toFinset, List.mem_map, List.mem_dedup]
    constructor
    · rintro ⟨r, ⟨p, hp, rfl⟩, rfl⟩
      exact ⟨p, hp, rfl⟩
    · rintro ⟨p, hp, rfl⟩
      exact ⟨_, ⟨p, hp, rfl⟩, rfl⟩

/-- Witness for C4: two users with distinct ids, two posts in different
months of 2020, and the selector (year=2020, month=0, author=0). -/
theorem C4_facet_resolver_witness :
    (((archive_options [⟨1, "j@e.com", "h1", "Joe"⟩, ⟨2, "s@e.com", "h2", "Sue"⟩]
          [⟨1, "t1", "b1", ⟨2020, 2, 0⟩, 1⟩, ⟨2, "t2", "b2", ⟨2020, 5, 1⟩, 2⟩]
          2020 0 0).year.tail.map FacetOption.value).Nodup ∧
      ((archive_options [⟨1, "j@e.com", "h1", "Joe"⟩, ⟨2, "s@e.com", "h2", "Sue"⟩]
          [⟨1, "t1", "b1", ⟨2020, 2, 0⟩, 1⟩, ⟨2, "t2", "b2", ⟨2020, 5, 1⟩, 2⟩]
          2020 0 0).year.tail.map FacetOption.value).toFinset =
        ((([⟨1, "t1", "b1", ⟨2020, 2, 0⟩, 1⟩, ⟨2, "t2", "b2", ⟨2020, 5, 1⟩, 2⟩] :
              List Post).filter
            (fun p => ((0 : Int) == 0 || p.pub_date.month == (0 : Int)) &&
              ((0 : Int) == 0 || p.author_id == (0 : Int)))).map
          (fun p => p.pub_date.year)).toFinset) ∧
    (((archive_options [⟨1, "j@e.com", "h1", "Joe"⟩, ⟨2, "s@e.com", "h2", "Sue"⟩]
          [⟨1, "t1", "b1", ⟨2020, 2, 0⟩, 1⟩, ⟨2, "t2", "b2", ⟨2020, 5, 1⟩, 2⟩]
          2020 0 0).month.tail.map FacetOption.value).Nodup ∧
      ((archive_options [⟨1, "j@e.com", "h1", "Joe"⟩, ⟨2, "s@e.com", "h2", "Sue"⟩]
          [⟨1, "t1", "b1", ⟨2020, 2, 0⟩, 1⟩, ⟨2, "t2", "b2", ⟨2020, 5, 1⟩, 2⟩]
          2020 0 0).month.tail.map FacetOption.value).toFinset =
        ((([⟨1, "t1", "b1", ⟨2020, 2, 0⟩, 1⟩, ⟨2, "t2", "b2", ⟨2020, 5, 1⟩, 2⟩] :
              List Post).filter
            (fun p => ((2020 : Int) == 0 || p.pub_date.year == (2020 : Int)) &&
              ((0 : Int) == 0 || p.author_id == (0 : Int)))).map
          (fun p => p.pub_date.month)).toFinset) ∧
    (((archive_options [⟨1, "j@e.com", "h1", "Joe"⟩, ⟨2, "s@e.com", "h2", "Sue"⟩]
          [⟨1, "t1", "b1", ⟨2020, 2, 0⟩, 1⟩, ⟨2, "t2", "b2", ⟨2020, 5, 1⟩, 2⟩]
          2020 0 0).author.tail.map FacetOption.value).Nodup ∧
      ((archive_options [⟨1, "j@e.com", "h1", "Joe"⟩, ⟨2, "s@e.com", "h2", "Sue"⟩]
          [⟨1, "t1", "b1", ⟨2020, 2, 0⟩, 1⟩, ⟨2, "t2", "b2", ⟨2020, 5, 1⟩, 2⟩]
          2020 0 0).author.tail.map FacetOption.value).toFinset =
        ((([⟨1, "t1", "b1", ⟨2020, 2, 0⟩, 1⟩, ⟨2, "t2", "b2", ⟨2020, 5, 1⟩, 2⟩] :
              List Post).filter
            (fun p => ((2020 : Int) == 0 || p.pub_date.year == (2020 : Int)) &&
              ((0 : Int) == 0 || p.pub_date.month == (0 : Int)))).map
          (fun p => p.author_id)).toFinset) :=
  C4_facet_resolver [⟨1, "j@e.com", "h1", "Joe"⟩, ⟨2, "s@e.com", "h2", "Sue"⟩]
    [⟨1, "t1", "b1", ⟨2020, 2, 0⟩, 1⟩, ⟨2, "t2", "b2", ⟨2020, 5, 1⟩, 2⟩]
    2020 0 0 (by decide)

/-- C6: the archive route's listing mode applies no order_by: with the older
post stored first, the served page keeps storage order, so it is not ordered
by publication timestamp descending. -/
theorem C6_archive_listing_not_sorted :
    (archive_listing
        [⟨1, "first", "older post", ⟨2020, 1, 0⟩, 1⟩,
         ⟨2, "second", "newer post", ⟨2021, 3, 0⟩, 1⟩] 0 0 1 1).items =
      [⟨1, "first", "older post", ⟨2020, 1, 0⟩, 1⟩,
       ⟨2, "second", "newer post", ⟨2021, 3, 0⟩, 1⟩] ∧
      sortedByPubDateDesc (archive_listing
        [⟨1, "first", "older post", ⟨2020, 1, 0⟩, 1⟩,
         ⟨2, "second", "newer post", ⟨2021, 3, 0⟩, 1⟩] 0 0 1 1).items = false := by
  constructor <;> rfl

/-- C8: an author_id selector matching no stored user yields an empty listing
rather than an error, with has_next and has_prev false on the served (first)
page; the only fact needed about the store is the schema invariant that every
post's author_id references a stored user — the archive layer itself checks
nothing. -/
theorem C8_nonexistent_author_empty (users : List User) (posts : List Post)
    (y m a : Int) (ha : a ≠ 0) (hnx : ∀ u ∈ users, u.id ≠ a)
    (hinv : ∀ p ∈ posts, ∃ u ∈ users, u.id = p.author_id) :
    archive_posts posts y m a = [] ∧
      (archive_listing posts y m a 1).items = [] ∧
      (archive_listing posts y m a 1).has_next = false ∧
      (archive_listing posts y m a 1).has_prev = false := by
  have hempty : archive_posts posts y m a = [] := by
    rw [List.eq_nil_iff_forall_not_mem]
    intro p hp
    rw [mem_archive_posts] at hp
    obtain ⟨hpmem, -, -, hauth⟩ := hp
    obtain ⟨u, hu, hui⟩ := hinv p hpmem
    exact hnx u hu (hui.trans (hauth ha))
  refine ⟨hempty, ?_, ?_, ?_⟩ <;> simp only [archive_listing, hempty] <;> rfl

/-- Witness for C8: one stored user with id 1 and one of their posts; the
selector asks for author 7, which no user has. -/
theorem C8_nonexistent_author_empty_witness :
    archive_posts [⟨1, "t", "some body", ⟨2020, 5, 0⟩, 1⟩] 2099 0 7 = [] ∧
      (archive_listing [⟨1, "t", "some body", ⟨2020, 5, 0⟩, 1⟩] 2099 0 7 1).items = [] ∧
      (archive_listing [⟨1, "t", "some body", ⟨2020, 5, 0⟩, 1⟩] 2099 0 7 1).has_next = false ∧
      (archive_listing [⟨1, "t", "some body", ⟨2020, 5, 0⟩, 1⟩] 2099 0 7 1).has_prev = false :=
  C8_nonexistent_author_empty [⟨1, "joe@example.com", "hash", "Joe"⟩]
    [⟨1, "t", "some body", ⟨2020, 5, 0⟩, 1⟩] 2099 0 7
    (by decide) (by decide) (by decide)

/-- C7 counterexample: an absent query parameter (Python None) is not coerced
to an integer: int(None) raises TypeError, so the archive-options computation
for an ajax request with all three parameters absent errors before any
sentinel comparison. -/
theorem C7_absent_param_not_coerced :
    pyInt Param.none = Except.error PyError.typeError ∧
      Raw.archive_options_filters Param.none Param.none Param.none =
        Except.error PyError.typeError := by
  constructor <;> rfl

/-- C7 (amended): whenever int() succeeds on a raw request value, each filter
builder compares the coerced integer — never the raw value — against the
sentinel 0: the result is the no-op criterion exactly when the coerced value
is 0, and the column criterion otherwise. -/
theorem C7_coercion_before_sentinel (v : Param) (n : Int) (h : pyInt v = Except.ok n) :
    Raw.year_filter v =
        Except.ok (if n == 0 then Option.none else Option.some ⟨Col.year, v⟩) ∧
      Raw.month_filter v =
        Except.ok (if n == 0 then Option.none else Option.some ⟨Col.month, v⟩) ∧
      Raw.author_filter v =
        Except.ok (if n == 0 then Option.none else Option.some ⟨Col.author, v⟩) := by
  refine ⟨?_, ?_, ?_⟩ <;>
    simp only [Raw.year_filter, Raw.month_filter, Raw.author_filter, h] <;>
    by_cases hn : n == 0 <;> simp [hn]

/-- Witness for C7 at the raw value 5, whose coercion succeeds with a
non-zero result. -/
theorem C7_coercion_before_sentinel_witness :
    Raw.year_filter (Param.int 5) = Except.ok (Option.some ⟨Col.year, Param.int 5⟩) ∧
      Raw.month_filter (Param.int 5) = Except.ok (Option.some ⟨Col.month, Param.int 5⟩) ∧
      Raw.author_filter (Param.int 5) = Except.ok (Option.some ⟨Col.author, Param.int 5⟩) := by
  have h := C7_coercion_before_sentinel (Param.int 5) 5 rfl
  simpa using h

/-- C10: the authors query lists exactly the stored users having at least one
post, each paired with the number of stored posts whose author_id is that
user's id. -/
theorem C10_authors_have_posts (users : List User) (posts : List Post)
    (u : User) (c : Nat) :
    (u, c) ∈ authors_query users posts ↔
      u ∈ users ∧ 0 < c ∧ c = posts.countP (fun p => p.author_id == u.id) := by
  simp only [authors_query, List.mem_filterMap, List.mem_map]
  constructor
  · rintro ⟨r, ⟨w, hw, rfl⟩, hr⟩
    by_cases he : (posts.filter (fun p => p.author_id == w.id)).isEmpty
    · simp [he] at hr
    · simp only [he, Bool.false_eq_true, if_false, Option.some.injEq, Prod.mk.injEq] at hr
      obtain ⟨h1, h2⟩ := hr
      refine ⟨h1 ▸ hw, ?_, ?_⟩
      · rw [← h2]
        have hne : posts.filter (fun p => p.author_id == w.id) ≠ [] := by
          simpa [List.isEmpty_iff] using he
        exact List.length_pos.mpr hne
      · rw [← h2, ← h1, List.countP_eq_length_filter]
  · rintro ⟨hu, hc, rfl⟩
    refine ⟨(u, posts.filter (fun p => p.author_id == u.id)), ⟨u, hu, rfl⟩, ?_⟩
    rw [List.countP_eq_length_filter] at hc
    have hne : (posts.filter (fun p => p.author_id == u.id)).isEmpty = false := by
      rcases hfe : posts.filter (fun p => p.author_id == u.id) with _ | ⟨x, xs⟩
      · rw [hfe] at hc
        simp at hc
      · rw [hfe]
        rfl
    simp [hne, List.countP_eq_length_filter]

end Blog
